import Mathlib

/-!
Shallow embedding of the notion-autopilot repository (Python) in Lean 4.

The embedding models:
  * `src/basic_operations.py` : `create_new_entry`, `update_entry_status`
    (schema scan, title/status column discovery, status substitution);
  * `src/notion/fetch_pages.py` : the title-extraction expression shared by
    `get_projects`, `get_tasks`, `get_prompt_library`;
  * `src/notion/post_tasks.py` : the fixed property maps sent by
    `update_project_status` and `create_dashboard_update`;
  * `src/scheduled_refresh.py` : `perform_refresh` and the `start_scheduler`
    polling loop (schedule library semantics: the job's next run is set at
    registration time and re-armed to `now + interval` each time it fires);
  * `src/notion/updater.py` : `update_changelog` (audit sink append).

Remote calls are modelled by oracles passed as arguments; an oracle value of
`none` / a `false` flag models the call raising an exception.  Python
truthiness of strings (`if status_property and status:`) is modelled
explicitly: a string is truthy iff it is non-empty.
-/

namespace NotionAutopilot

/-- Column kinds distinguished by `create_new_entry`'s schema scan
(`prop_data['type']` is compared against `'title'` and `'status'`;
everything else is ignored). -/
inductive ColKind
  | title
  | status
  | other
  deriving DecidableEq, Repr

/-- One column definition from `notion.databases.retrieve(...)['properties']`.
For a status column, `statusOptions = some opts` models the payload having
both the `'status'` key and an `'options'` key (basic_operations.py line 66);
`none` models that nested payload being absent. -/
structure ColumnDef where
  kind : ColKind
  statusOptions : Option (List String) := none
  deriving DecidableEq, Repr

/-- Python truthiness of an optional string: `None` and `""` are falsy. -/
def truthyStr : Option String → Bool
  | none => false
  | some s => s != ""

/-- Accumulator of the schema scan loop in `create_new_entry`
(basic_operations.py lines 57-67). -/
structure ScanResult where
  titleProp : Option String
  statusProp : Option String
  statusOptions : List String
  deriving DecidableEq, Repr

/-- One iteration of the scan loop: a title column overwrites `titleProp`,
a status column overwrites `statusProp` and, only when its payload carries
options, `statusOptions`. -/
def scanStep (r : ScanResult) (p : String × ColumnDef) : ScanResult :=
  match p.2.kind with
  | ColKind.title => { r with titleProp := some p.1 }
  | ColKind.status =>
      { r with
        statusProp := some p.1
        statusOptions :=
          match p.2.statusOptions with
          | some opts => opts
          | none => r.statusOptions }
  | ColKind.other => r

/-- The full schema scan of `create_new_entry` over the database's property
list, starting from `title_property = None`, `status_property = None`,
`status_options = []`. -/
def scanSchema (db : List (String × ColumnDef)) : ScanResult :=
  db.foldl scanStep ⟨none, none, []⟩

/-- A property value sent to the remote store by a write path. -/
inductive PropValue
  | titleVal (content : String)
  | statusVal (name : String)
  | dateVal (start : String)
  deriving DecidableEq, Repr

/-- Observable outcome of a `create_new_entry` call: whether
`notion.pages.create` was invoked, the property map it was given, whether a
substitution warning was logged, and the returned page id (`none` models
returning `None`, after a failure or a caught exception). -/
structure CreateOutcome where
  createIssued : Bool
  sentProps : List (String × PropValue)
  warned : Bool
  result : Option String
  deriving DecidableEq, Repr

/-- The status branch of `create_new_entry` (basic_operations.py lines
85-96).  Returns the status entries to add to the property map and whether
the substitution warning fired.  `if status_property and status:` uses
Python truthiness, hence the `!= ""` guards. -/
def statusBranch (r : ScanResult) (status : Option String) :
    List (String × PropValue) × Bool :=
  match r.statusProp, status with
  | some sp, some s =>
      if sp != "" && s != "" then
        if r.statusOptions.contains s then
          ([(sp, PropValue.statusVal s)], false)
        else if !r.statusOptions.isEmpty then
          ([(sp, PropValue.statusVal (r.statusOptions.headD ""))], true)
        else ([], false)
      else if sp != "" && !r.statusOptions.isEmpty then
        ([(sp, PropValue.statusVal (r.statusOptions.headD ""))], false)
      else ([], false)
  | some sp, none =>
      if sp != "" && !r.statusOptions.isEmpty then
        ([(sp, PropValue.statusVal (r.statusOptions.headD ""))], false)
      else ([], false)
  | none, _ => ([], false)

/-- `create_new_entry(notion, database_id, title, status=None)`
(basic_operations.py lines 49-108).  `db` is the retrieved schema;
`remoteCreate` is the `notion.pages.create` oracle (`none` = the call
raised, caught at line 106, returning `None`). -/
def create_new_entry (db : List (String × ColumnDef)) (title : String)
    (status : Option String)
    (remoteCreate : List (String × PropValue) → Option String) :
    CreateOutcome :=
  let r := scanSchema db
  match r.titleProp with
  | some tp =>
      if tp != "" then
        let sb := statusBranch r status
        let props := (tp, PropValue.titleVal title) :: sb.1
        { createIssued := true
          sentProps := props
          warned := sb.2
          result := remoteCreate props }
      else ⟨false, [], false, none⟩
  | none => ⟨false, [], false, none⟩

/-- Observable outcome of `update_entry_status`: whether
`notion.pages.retrieve` and `notion.pages.update` were invoked, the
(column, status-name) pair sent, and the returned boolean. -/
structure UpdateOutcome where
  retrieveIssued : Bool
  updateIssued : Bool
  sentProp : Option (String × String)
  result : Bool
  deriving DecidableEq, Repr

/-- The scan at basic_operations.py lines 123-127: first property whose
type is `'status'`, with early `break`. -/
def findStatusProp : List (String × ColKind) → Option String
  | [] => none
  | (n, k) :: rest =>
      if k == ColKind.status then some n else findStatusProp rest

/-- `update_entry_status(notion, page_id, new_status)`
(basic_operations.py lines 110-149).  `retrieve` is the
`notion.pages.retrieve` oracle giving the page's property name/kind map
(`none` = the call raised); `updateOk` tells whether `notion.pages.update`
succeeds.  Exceptions are caught at line 147 and yield `False`. -/
def update_entry_status (pageId : Option String)
    (retrieve : Option (List (String × ColKind))) (updateOk : Bool)
    (newStatus : String) : UpdateOutcome :=
  if truthyStr pageId = false then ⟨false, false, none, false⟩
  else
    match retrieve with
    | none => ⟨true, false, none, false⟩
    | some props =>
        match findStatusProp props with
        | some sp =>
            if sp != "" then ⟨true, true, some (sp, newStatus), updateOk⟩
            else ⟨true, false, none, false⟩
        | none => ⟨true, false, none, false⟩

/-- One rich-text run as seen by the read path; `plain_text = none` models a
dict without the `'plain_text'` key (the `[{}]` default element). -/
structure RichRun where
  plain_text : Option String
  deriving DecidableEq, Repr

/-- The value of the `'Name'` property on a fetched row; `titleRuns = none`
models the property dict lacking the `'title'` key. -/
structure NameProp where
  titleRuns : Option (List RichRun)
  deriving DecidableEq, Repr

/-- The title-extraction expression shared by `get_projects` (line 49),
`get_tasks` (line 114) and `get_prompt_library` (line 177) of
`src/notion/fetch_pages.py`:

  `props.get('Name', {}).get('title', [{}])[0].get('plain_text', placeholder)`

`nameProp = none` models the row having no `'Name'` property.  The result
`none` models the expression raising `IndexError` (which propagates out of
the fetch function after being logged). -/
def extract_title (nameProp : Option NameProp) (placeholder : String) :
    Option String :=
  let runs : List RichRun :=
    match nameProp with
    | none => [⟨none⟩]
    | some np =>
        match np.titleRuns with
        | none => [⟨none⟩]
        | some l => l
  match runs with
  | [] => none
  | r :: _ =>
      some (match r.plain_text with
            | some t => t
            | none => placeholder)

/-- The property map sent by `update_project_status`
(src/notion/post_tasks.py lines 79-88): the fixed column name `"Status"`,
with no schema introspection of any kind (the function has no access to a
schema at all). -/
def update_project_status_props (status : String) :
    List (String × PropValue) :=
  [("Status", PropValue.statusVal status)]

/-- The property map sent by the `notion.pages.create` call inside
`create_dashboard_update` (src/notion/post_tasks.py lines 141-159): the
fixed column names `"Name"` and `"Date"`, with no schema introspection. -/
def create_dashboard_update_props (title nowIso : String) :
    List (String × PropValue) :=
  [("Name", PropValue.titleVal title), ("Date", PropValue.dateVal nowIso)]

/-- The errors that can be raised inside `perform_refresh`'s `try` block
(src/scheduled_refresh.py lines 38-51): configuration load, client
initialization, the database query. -/
inductive RefreshError
  | configError
  | clientInitError
  | queryError
  deriving DecidableEq, Repr

/-- `perform_refresh()` (src/scheduled_refresh.py lines 34-54) given the
outcome of its body: any raised error is caught at line 52, logged, and
turned into `False`; success returns `True`. -/
def perform_refresh : Option RefreshError → Bool
  | some _ => false
  | none => true

/-- State of the `start_scheduler` polling loop.  Time is counted in ticks
of the `time.sleep(1)` granularity (seconds); `nextRun` is the schedule
library's next-run time for the registered job; `cyclesStarted` counts the
refresh cycles run so far (the initial synchronous one included);
`results` records each cycle's boolean outcome, most recent first. -/
structure SchedState where
  now : Nat
  nextRun : Nat
  cyclesStarted : Nat
  results : List Bool
  deriving DecidableEq, Repr

/-- One iteration of the `while True` loop in `start_scheduler`
(src/scheduled_refresh.py lines 70-72): `schedule.run_pending()` runs the
job when its next-run time has been reached (re-arming it to
`now + 60 * interval_minutes`), then `time.sleep(1)` advances time by one
tick.  `oracle` gives each cycle's error, indexed by cycle number. -/
def schedTick (intervalMinutes : Nat) (oracle : Nat → Option RefreshError)
    (s : SchedState) : SchedState :=
  let s1 :=
    if s.nextRun ≤ s.now then
      { s with
        cyclesStarted := s.cyclesStarted + 1
        results := perform_refresh (oracle s.cyclesStarted) :: s.results
        nextRun := s.now + 60 * intervalMinutes }
    else s
  { s1 with now := s1.now + 1 }

/-- State after the start-up sequence of `start_scheduler`
(src/scheduled_refresh.py lines 61-65): the job is registered with next
run one interval away, then one refresh cycle runs immediately and
synchronously. -/
def sched_init (intervalMinutes : Nat) (oracle : Nat → Option RefreshError) :
    SchedState :=
  { now := 0
    nextRun := 60 * intervalMinutes
    cyclesStarted := 1
    results := [perform_refresh (oracle 0)] }

/-- The polling loop with `fuel` remaining iterations.  `interrupt t`
models `KeyboardInterrupt` arriving at tick time `t`; the returned flag is
`true` iff the loop exited because of an interrupt (rather than the fuel
running out while it was still looping). -/
def schedLoop (intervalMinutes : Nat) (oracle : Nat → Option RefreshError)
    (interrupt : Nat → Bool) : Nat → SchedState → SchedState × Bool
  | 0, s => (s, false)
  | fuel + 1, s =>
      if interrupt s.now then (s, true)
      else schedLoop intervalMinutes oracle interrupt fuel
             (schedTick intervalMinutes oracle s)

/-- `start_scheduler(interval_minutes)` observed for `fuel` loop
iterations: the start-up sequence followed by the polling loop. -/
def start_scheduler (intervalMinutes : Nat)
    (oracle : Nat → Option RefreshError) (interrupt : Nat → Bool)
    (fuel : Nat) : SchedState × Bool :=
  schedLoop intervalMinutes oracle interrupt fuel
    (sched_init intervalMinutes oracle)

/-- File-system failure points inside `update_changelog`'s `try` block
(src/notion/updater.py lines 66-76). -/
inductive FsError
  | headerWriteFailed
  | appendFailed
  deriving DecidableEq, Repr

/-- The file-system behaviour `update_changelog` runs against: whether
`data/changelog.csv` already exists, and whether the header write or the
line append raises. -/
structure FsState where
  fileExists : Bool
  headerWriteFails : Bool
  appendFails : Bool
  deriving DecidableEq, Repr

/-- What a call to `update_changelog` did: whether the header and the line
were written, and whether an error was caught and logged. -/
structure ChangelogOutcome where
  headerWritten : Bool
  lineAppended : Bool
  errorLogged : Bool
  deriving DecidableEq, Repr

/-- The body of `update_changelog`'s `try` block (src/notion/updater.py
lines 67-76): create the file with a header line if it does not exist,
then append the entry line.  Either file operation may raise; a raise
aborts the body but the file effects already performed stay performed, so
an error carries the header-written flag as it stood at the raise (when
the file was absent and the header write succeeded before the append
raised, the header is on disk).  Success carries
(headerWritten, lineAppended). -/
def changelogBody (fs : FsState) : Except (FsError × Bool) (Bool × Bool) :=
  if !fs.fileExists then
    if fs.headerWriteFails then
      Except.error (FsError.headerWriteFailed, false)
    else if fs.appendFails then Except.error (FsError.appendFailed, true)
    else Except.ok (true, true)
  else if fs.appendFails then Except.error (FsError.appendFailed, false)
  else Except.ok (false, true)

/-- `update_changelog(message, status)` (src/notion/updater.py lines
62-78): the `except` at line 77 catches every error from the body and
logs it, so the function itself returns normally, with the body's partial
file effects kept; an `Except.error` result would model an exception
propagating to the caller. -/
def update_changelog (fs : FsState) : Except FsError ChangelogOutcome :=
  match changelogBody fs with
  | Except.ok (h, a) => Except.ok ⟨h, a, false⟩
  | Except.error (_, h) => Except.ok ⟨h, false, true⟩

/-! ### Helper lemmas about the schema scan -/

/-- One scan step either installs the current column's name as the title
property or leaves the title property unchanged. -/
theorem scanStep_titleProp (init : ScanResult) (p : String × ColumnDef) :
    (scanStep init p).titleProp = some p.1 ∨
    (scanStep init p).titleProp = init.titleProp := by
  unfold scanStep
  rcases hk : p.2.kind <;> simp [hk]

/-- One scan step either installs the current column's name as the status
property or leaves the status property unchanged. -/
theorem scanStep_statusProp (init : ScanResult) (p : String × ColumnDef) :
    (scanStep init p).statusProp = some p.1 ∨
    (scanStep init p).statusProp = init.statusProp := by
  unfold scanStep
  rcases hk : p.2.kind <;> simp [hk]

/-- A scanned title property name is a column name of the database (or was
already in the accumulator). -/
theorem scanFold_titleProp_mem (db : List (String × ColumnDef)) :
    ∀ (init : ScanResult) (tp : String),
      (db.foldl scanStep init).titleProp = some tp →
      tp ∈ db.map Prod.fst ∨ init.titleProp = some tp := by
  induction db with
  | nil => intro init tp h; exact Or.inr h
  | cons p rest ih =>
      intro init tp h
      rw [List.foldl_cons] at h
      rcases ih (scanStep init p) tp h with hmem | heq
      · refine Or.inl ?_
        rw [List.map_cons]
        exact List.mem_cons_of_mem _ hmem
      · rcases scanStep_titleProp init p with h1 | h1
        · rw [h1] at heq
          injection heq with heq
          refine Or.inl ?_
          rw [List.map_cons, heq]
          exact List.mem_cons_self _ _
        · rw [h1] at heq
          exact Or.inr heq

/-- A scanned status property name is a column name of the database (or was
already in the accumulator). -/
theorem scanFold_statusProp_mem (db : List (String × ColumnDef)) :
    ∀ (init : ScanResult) (sp : String),
      (db.foldl scanStep init).statusProp = some sp →
      sp ∈ db.map Prod.fst ∨ init.statusProp = some sp := by
  induction db with
  | nil => intro init sp h; exact Or.inr h
  | cons p rest ih =>
      intro init sp h
      rw [List.foldl_cons] at h
      rcases ih (scanStep init p) sp h with hmem | heq
      · refine Or.inl ?_
        rw [List.map_cons]
        exact List.mem_cons_of_mem _ hmem
      · rcases scanStep_statusProp init p with h1 | h1
        · rw [h1] at heq
          injection heq with heq
          refine Or.inl ?_
          rw [List.map_cons, heq]
          exact List.mem_cons_self _ _
        · rw [h1] at heq
          exact Or.inr heq

/-- If the database has no title-kind column, the scan never sets the title
property. -/
theorem scanFold_titleProp_of_no_title (db : List (String × ColumnDef)) :
    ∀ (init : ScanResult), (∀ p ∈ db, p.2.kind ≠ ColKind.title) →
      (db.foldl scanStep init).titleProp = init.titleProp := by
  induction db with
  | nil => intro init _; rfl
  | cons p rest ih =>
      intro init h
      rw [List.foldl_cons]
      rw [ih (scanStep init p) (fun q hq => h q (List.mem_cons_of_mem p hq))]
      unfold scanStep
      rcases hk : p.2.kind <;> simp [hk]
      exact absurd hk (h p (List.mem_cons_self p rest))

/-- If the database has no status-kind column, the scan never sets the
status property. -/
theorem scanFold_statusProp_of_no_status (db : List (String × ColumnDef)) :
    ∀ (init : ScanResult), (∀ p ∈ db, p.2.kind ≠ ColKind.status) →
      (db.foldl scanStep init).statusProp = init.statusProp := by
  induction db with
  | nil => intro init _; rfl
  | cons p rest ih =>
      intro init h
      rw [List.foldl_cons]
      rw [ih (scanStep init p) (fun q hq => h q (List.mem_cons_of_mem p hq))]
      unfold scanStep
      rcases hk : p.2.kind <;> simp [hk]
      exact absurd hk (h p (List.mem_cons_self p rest))

/-- Every property the status branch emits is named by the scanned status
property. -/
theorem statusBranch_fst (r : ScanResult) (st : Option String)
    (q : String × PropValue) (hq : q ∈ (statusBranch r st).1) :
    r.statusProp = some q.1 := by
  rcases hsp : r.statusProp with _ | sp <;>
    rcases st with _ | s <;>
      simp only [statusBranch, hsp] at hq <;>
        (try split at hq) <;> (try split at hq) <;> (try split at hq) <;>
          simp_all

/-! ### Helper lemmas about the scheduler loop -/

/-- One loop iteration advances time by exactly one tick. -/
theorem schedTick_now (im : Nat) (o : Nat → Option RefreshError)
    (s : SchedState) : (schedTick im o s).now = s.now + 1 := by
  unfold schedTick
  split <;> rfl

/-- The control fields of the loop state (time, next-run time, cycle count)
do not depend on the cycle-outcome oracle. -/
theorem schedTick_ctrl (im : Nat) (o o' : Nat → Option RefreshError)
    (s s' : SchedState) (hn : s.now = s'.now) (hr : s.nextRun = s'.nextRun)
    (hc : s.cyclesStarted = s'.cyclesStarted) :
    (schedTick im o s).now = (schedTick im o' s').now ∧
    (schedTick im o s).nextRun = (schedTick im o' s').nextRun ∧
    (schedTick im o s).cyclesStarted = (schedTick im o' s').cyclesStarted := by
  unfold schedTick
  rw [hn, hr, hc]
  split <;> simp [hn, hr, hc]

/-- Along the whole loop, the control fields and the exit flag do not
depend on the cycle-outcome oracle. -/
theorem schedLoop_ctrl (im : Nat) (o o' : Nat → Option RefreshError)
    (intr : Nat → Bool) :
    ∀ (k : Nat) (s s' : SchedState),
      s.now = s'.now → s.nextRun = s'.nextRun →
      s.cyclesStarted = s'.cyclesStarted →
      (schedLoop im o intr k s).1.now = (schedLoop im o' intr k s').1.now ∧
      (schedLoop im o intr k s).1.nextRun
        = (schedLoop im o' intr k s').1.nextRun ∧
      (schedLoop im o intr k s).1.cyclesStarted
        = (schedLoop im o' intr k s').1.cyclesStarted ∧
      (schedLoop im o intr k s).2 = (schedLoop im o' intr k s').2
  | 0, s, s', hn, hr, hc => ⟨hn, hr, hc, rfl⟩
  | k + 1, s, s', hn, hr, hc => by
      simp only [schedLoop]
      rw [hn]
      split
      · exact ⟨hn, hr, hc, rfl⟩
      · obtain ⟨t1, t2, t3⟩ := schedTick_ctrl im o o' s s' hn hr hc
        exact schedLoop_ctrl im o o' intr k _ _ t1 t2 t3

/-- With no interrupt ever arriving, the loop never exits and runs all its
iterations, one tick each. -/
theorem schedLoop_no_interrupt (im : Nat) (o : Nat → Option RefreshError)
    (intr : Nat → Bool) (h : ∀ t, intr t = false) :
    ∀ (k : Nat) (s : SchedState),
      (schedLoop im o intr k s).2 = false ∧
      (schedLoop im o intr k s).1.now = s.now + k
  | 0, s => by simp [schedLoop]
  | k + 1, s => by
      simp only [schedLoop, h, Bool.false_eq_true, if_false]
      obtain ⟨h1, h2⟩ := schedLoop_no_interrupt im o intr h k (schedTick im o s)
      refine ⟨h1, ?_⟩
      rw [h2, schedTick_now]
      omega

/-! ### Statement-level predicates and bridge lemmas -/

/-- The database has a title-kind column. -/
def hasTitleColumn (db : List (String × ColumnDef)) : Bool :=
  db.any (fun p => p.2.kind == ColKind.title)

/-- The database has a status-kind column. -/
def hasStatusColumn (db : List (String × ColumnDef)) : Bool :=
  db.any (fun p => p.2.kind == ColKind.status)

/-- Without a title-kind column, the scan finds no title property. -/
theorem scanSchema_titleProp_of_no_title (db : List (String × ColumnDef))
    (h : hasTitleColumn db = false) : (scanSchema db).titleProp = none := by
  refine scanFold_titleProp_of_no_title db ⟨none, none, []⟩ ?_
  intro p hp hk
  rw [hasTitleColumn, List.any_eq_false] at h
  exact absurd (by simp [hk]) (h p hp)

/-- Without a status-kind column, the scan finds no status property. -/
theorem scanSchema_statusProp_of_no_status (db : List (String × ColumnDef))
    (h : hasStatusColumn db = false) : (scanSchema db).statusProp = none := by
  refine scanFold_statusProp_of_no_status db ⟨none, none, []⟩ ?_
  intro p hp hk
  rw [hasStatusColumn, List.any_eq_false] at h
  exact absurd (by simp [hk]) (h p hp)

/-- The column located by `update_entry_status`'s scan is one of the
retrieved row's property names. -/
theorem findStatusProp_mem :
    ∀ (props : List (String × ColKind)) (sp : String),
      findStatusProp props = some sp → sp ∈ props.map Prod.fst
  | [], _, h => by cases h
  | (n, k) :: rest, sp, h => by
      unfold findStatusProp at h
      split at h
      · injection h with h
        rw [List.map_cons, h]
        exact List.mem_cons_self _ _
      · rw [List.map_cons]
        exact List.mem_cons_of_mem _ (findStatusProp_mem rest sp h)

/-! ### Concrete fixtures used by the witnesses -/

/-- The demo schema of the spec's scenarios:
`{Name: title, Status: status[Not Started, In Progress, Done]}`. -/
def demoSchema : List (String × ColumnDef) :=
  [("Name", { kind := ColKind.title }),
   ("Status", { kind := ColKind.status,
                statusOptions := some ["Not Started", "In Progress", "Done"] })]

/-- A schema with a status column but no title column. -/
def noTitleSchema : List (String × ColumnDef) :=
  [("Status", { kind := ColKind.status, statusOptions := some ["Not Started"] })]

/-- A schema with a title column but no status column (and in particular
without the fixed column names `"Status"` and `"Date"` assumed by
post_tasks.py). -/
def noStatusSchema : List (String × ColumnDef) :=
  [("Title", { kind := ColKind.title })]

/-- A remote create oracle that always succeeds with a fixed page id. -/
def demoRemote : List (String × PropValue) → Option String :=
  fun _ => some "page-1"

/-! ### Claim theorems -/

/-- C1: for a table whose discovered schema has a title column and a status
column with a non-empty ordered option list `o1 :: os`, calling
`create_new_entry` with a desired status that is not among the valid
options creates the row with status `o1` (the first valid option) and
records a substitution warning; a desired status among the options is used
unchanged (and no warning fires).  The hypotheses phrase "given" the way
the source does (Python truthiness: a non-empty string). -/
theorem C1_create_invalid_status_substitutes_first_option
    (db : List (String × ColumnDef)) (title s : String)
    (remote : List (String × PropValue) → Option String)
    (tp sp o1 : String) (os : List String)
    (htp : (scanSchema db).titleProp = some tp) (htpn : tp ≠ "")
    (hsp : (scanSchema db).statusProp = some sp) (hspn : sp ≠ "")
    (hos : (scanSchema db).statusOptions = o1 :: os)
    (hsn : s ≠ "") :
    (s ∉ o1 :: os →
      create_new_entry db title (some s) remote =
        { createIssued := true
          sentProps := [(tp, PropValue.titleVal title),
                        (sp, PropValue.statusVal o1)]
          warned := true
          result := remote [(tp, PropValue.titleVal title),
                            (sp, PropValue.statusVal o1)] }) ∧
    (s ∈ o1 :: os →
      create_new_entry db title (some s) remote =
        { createIssued := true
          sentProps := [(tp, PropValue.titleVal title),
                        (sp, PropValue.statusVal s)]
          warned := false
          result := remote [(tp, PropValue.titleVal title),
                            (sp, PropValue.statusVal s)] }) := by
  have h1 : (tp != "") = true := bne_iff_ne.mpr htpn
  have h2 : (sp != "") = true := bne_iff_ne.mpr hspn
  have h3 : (s != "") = true := bne_iff_ne.mpr hsn
  constructor
  · intro hmem
    have hmem' : ¬(s = o1 ∨ s ∈ os) := fun h => hmem (List.mem_cons.mpr h)
    simp [create_new_entry, statusBranch, htp, hsp, hos, h1, h2, h3, hmem']
  · intro hmem
    have hmem' : s = o1 ∨ s ∈ os := List.mem_cons.mp hmem
    simp [create_new_entry, statusBranch, htp, hsp, hos, h1, h2, h3]
    rw [if_pos hmem']
    exact ⟨rfl, rfl, rfl⟩

/-- Witness for C1: the spec's own scenario, `createRow(table, "T2",
desiredStatus="Bogus")` against `{Name: title, Status: status[Not Started,
In Progress, Done]}` creates the row with status `"Not Started"` and the
substitution warning. -/
theorem C1_create_invalid_status_substitutes_first_option_witness :
    (scanSchema demoSchema).titleProp = some "Name" ∧
    (scanSchema demoSchema).statusProp = some "Status" ∧
    (scanSchema demoSchema).statusOptions
      = ["Not Started", "In Progress", "Done"] ∧
    ("Name" : String) ≠ "" ∧ ("Status" : String) ≠ "" ∧
    ("Bogus" : String) ≠ "" ∧
    "Bogus" ∉ ["Not Started", "In Progress", "Done"] ∧
    create_new_entry demoSchema "T2" (some "Bogus") demoRemote =
      { createIssued := true
        sentProps := [("Name", PropValue.titleVal "T2"),
                      ("Status", PropValue.statusVal "Not Started")]
        warned := true
        result := some "page-1" } :=
  ⟨rfl, rfl, rfl, by decide, by decide, by decide, by decide, by
    rw [(C1_create_invalid_status_substitutes_first_option demoSchema "T2"
          "Bogus" demoRemote "Name" "Status" "Not Started"
          ["In Progress", "Done"] rfl (by decide) rfl (by decide) rfl
          (by decide)).1 (by decide)]
    rfl⟩

/-- C5: on a table whose discovered schema has no title column,
`create_new_entry` returns the failure value `None` and issues no remote
create call (the property map is never sent). -/
theorem C5_create_without_title_column_fails
    (db : List (String × ColumnDef)) (title : String) (st : Option String)
    (remote : List (String × PropValue) → Option String)
    (h : hasTitleColumn db = false) :
    create_new_entry db title st remote =
      { createIssued := false, sentProps := [], warned := false,
        result := none } := by
  have htp : (scanSchema db).titleProp = none :=
    scanSchema_titleProp_of_no_title db h
  simp [create_new_entry, htp]

/-- Witness for C5: a schema holding only a status column. -/
theorem C5_create_without_title_column_fails_witness :
    hasTitleColumn noTitleSchema = false ∧
    create_new_entry noTitleSchema "Test Entry" none demoRemote =
      { createIssued := false, sentProps := [], warned := false,
        result := none } :=
  ⟨rfl, C5_create_without_title_column_fails noTitleSchema "Test Entry"
          none demoRemote rfl⟩

/-- C6: on a table whose discovered schema has no status column (but does
have a title column, the code's precondition for creating at all),
`create_new_entry` issues the create with a property map holding only the
title property — no status-related property — whatever the desired status
argument is, and returns whatever the remote create returns. -/
theorem C6_create_without_status_column_writes_title_only
    (db : List (String × ColumnDef)) (title : String) (st : Option String)
    (remote : List (String × PropValue) → Option String) (tp : String)
    (hns : hasStatusColumn db = false)
    (htp : (scanSchema db).titleProp = some tp) (htpn : tp ≠ "") :
    create_new_entry db title st remote =
      { createIssued := true
        sentProps := [(tp, PropValue.titleVal title)]
        warned := false
        result := remote [(tp, PropValue.titleVal title)] } := by
  have hsp : (scanSchema db).statusProp = none :=
    scanSchema_statusProp_of_no_status db hns
  have h1 : (tp != "") = true := bne_iff_ne.mpr htpn
  rcases st with _ | s <;>
    simp [create_new_entry, statusBranch, htp, hsp, h1]

/-- Witness for C6: a title-only schema, with a desired status supplied,
still writes only the title property. -/
theorem C6_create_without_status_column_writes_title_only_witness :
    hasStatusColumn noStatusSchema = false ∧
    (scanSchema noStatusSchema).titleProp = some "Title" ∧
    ("Title" : String) ≠ "" ∧
    create_new_entry noStatusSchema "T" (some "In Progress") demoRemote =
      { createIssued := true
        sentProps := [("Title", PropValue.titleVal "T")]
        warned := false
        result := some "page-1" } :=
  ⟨rfl, rfl, by decide, by
    rw [C6_create_without_status_column_writes_title_only noStatusSchema
          "T" (some "In Progress") demoRemote "Title" rfl rfl (by decide)]
    rfl⟩

/-- C2 counterexample: the claimed invariant fails on the code.
`update_project_status` (post_tasks.py lines 79-88) sends the fixed column
name `"Status"` and `create_dashboard_update` (post_tasks.py lines 141-159)
sends the fixed names `"Name"` and `"Date"`; neither function performs any
schema or row introspection (their property maps do not depend on a schema
at all), so against the concrete schema `noStatusSchema` — whose only
column is `"Title"` — every one of those writes targets a column that does
not exist in the table's schema. -/
theorem C2_false_fixed_column_writes_without_introspection :
    ((update_project_status_props "Completed").map Prod.fst = ["Status"] ∧
      "Status" ∉ noStatusSchema.map Prod.fst) ∧
    ((create_dashboard_update_props "Update" "2026-10-12T00:00:00").map
        Prod.fst = ["Name", "Date"] ∧
      "Name" ∉ noStatusSchema.map Prod.fst ∧
      "Date" ∉ noStatusSchema.map Prod.fst) := by
  exact ⟨⟨rfl, by decide⟩, rfl, by decide, by decide⟩

/-- C2 amended: the introspected write paths of basic_operations.py do
satisfy the invariant — every property `create_new_entry` sends names a
column of the discovered schema, and the column `update_entry_status`
updates is one of the retrieved row's own properties — but the fixed-name
write paths of post_tasks.py (`update_project_status`,
`create_dashboard_update`) do not, as the counterexample shows. -/
theorem C2_amended_introspected_writes_target_schema_columns
    (db : List (String × ColumnDef)) (title : String) (st : Option String)
    (remote : List (String × PropValue) → Option String)
    (q : String × PropValue)
    (hq : q ∈ (create_new_entry db title st remote).sentProps)
    (pid : Option String) (props : List (String × ColKind)) (uok : Bool)
    (ns sp v : String)
    (hu : (update_entry_status pid (some props) uok ns).sentProp
            = some (sp, v)) :
    q.1 ∈ db.map Prod.fst ∧ sp ∈ props.map Prod.fst := by
  constructor
  · rcases htp : (scanSchema db).titleProp with _ | tp
    · simp [create_new_entry, htp] at hq
    · by_cases htpn : (tp != "") = true
      · simp [create_new_entry, htp, htpn] at hq
        rcases hq with hq | hq
        · rcases scanFold_titleProp_mem db ⟨none, none, []⟩ tp htp with hm | hm
          · rw [hq]; exact hm
          · simp at hm
        · have hsp := statusBranch_fst (scanSchema db) st q hq
          rcases scanFold_statusProp_mem db ⟨none, none, []⟩ q.1 hsp
            with hm | hm
          · exact hm
          · simp at hm
      · simp [create_new_entry, htp, htpn] at hq
  · by_cases hp : truthyStr pid = false
    · simp [update_entry_status, hp] at hu
    · rcases hf : findStatusProp props with _ | sp'
      · simp [update_entry_status, hp, hf] at hu
      · by_cases hs : (sp' != "") = true
        · simp [update_entry_status, hp, hf, hs] at hu
          rw [← hu.1]
          exact findStatusProp_mem props sp' hf
        · simp [update_entry_status, hp, hf, hs] at hu

/-- Witness for the amended C2: concrete create and update calls, each
property they send naming an existing column. -/
theorem C2_amended_introspected_writes_target_schema_columns_witness :
    ("Name", PropValue.titleVal "T")
      ∈ (create_new_entry demoSchema "T" none demoRemote).sentProps ∧
    (update_entry_status (some "page-9")
        (some [("Name", ColKind.title), ("Status", ColKind.status)])
        true "Done").sentProp = some ("Status", "Done") ∧
    "Name" ∈ demoSchema.map Prod.fst ∧
    "Status" ∈ [("Name", ColKind.title),
                ("Status", ColKind.status)].map Prod.fst :=
  ⟨by decide, by decide, by
    have h := C2_amended_introspected_writes_target_schema_columns
      demoSchema "T" none demoRemote ("Name", PropValue.titleVal "T")
      (by decide) (some "page-9")
      [("Name", ColKind.title), ("Status", ColKind.status)] true
      "Done" "Status" "Done" (by decide)
    exact ⟨h.1, h.2⟩⟩

/-- C3: the title-extraction used by the read paths.  The claim's defaults
hold when the title column is absent (`extract_title none` and a run
without `plain_text` give the placeholder) and when a run exists (first
run's text is used).  But on a row whose `'Name'` property is present with
an EMPTY rich-text list the expression
`.get('title', [{}])[0]` raises `IndexError` (the `[{}]` default applies
only when the `'title'` key is missing, not when the list is empty), so
the extraction fails (`= none`) instead of returning the placeholder:
the code contradicts the claim on that input. -/
theorem C3_title_extraction_fails_on_empty_rich_text_list :
    extract_title (some ⟨some []⟩) "Untitled Project" = none ∧
    extract_title none "Untitled Project" = some "Untitled Project" ∧
    extract_title (some ⟨none⟩) "Untitled Task" = some "Untitled Task" ∧
    extract_title (some ⟨some [⟨some "Website"⟩]⟩) "Untitled Project"
      = some "Website" :=
  ⟨rfl, rfl, rfl, rfl⟩

/-- C4: `update_entry_status` on a truthy page id first retrieves the row;
if its property scan finds no status-kind column it returns `False`
without issuing the update call, and if it finds one (with a truthy name,
as the source's `if not status_property` check requires) it issues the
update with the requested status verbatim — any string at all, no
validation against the schema's option set. -/
theorem C4_update_entry_status_scans_then_writes_verbatim
    (pid : Option String) (hpid : truthyStr pid = true)
    (props : List (String × ColKind)) (uok : Bool) (ns : String) :
    (findStatusProp props = none →
      update_entry_status pid (some props) uok ns =
        { retrieveIssued := true, updateIssued := false,
          sentProp := none, result := false }) ∧
    (∀ sp, findStatusProp props = some sp → sp ≠ "" →
      update_entry_status pid (some props) uok ns =
        { retrieveIssued := true, updateIssued := true,
          sentProp := some (sp, ns), result := uok }) := by
  constructor
  · intro h
    simp [update_entry_status, hpid, h]
  · intro sp h hn
    have h2 : (sp != "") = true := bne_iff_ne.mpr hn
    simp [update_entry_status, hpid, h, h2]

/-- Witness for C4: a page with a status column takes any status verbatim;
a page without one fails with no update issued. -/
theorem C4_update_entry_status_scans_then_writes_verbatim_witness :
    truthyStr (some "page-9") = true ∧
    findStatusProp [("Name", ColKind.title), ("Status", ColKind.status)]
      = some "Status" ∧
    ("Status" : String) ≠ "" ∧
    update_entry_status (some "page-9")
        (some [("Name", ColKind.title), ("Status", ColKind.status)])
        true "Totally Unvalidated" =
      { retrieveIssued := true, updateIssued := true,
        sentProp := some ("Status", "Totally Unvalidated"),
        result := true } ∧
    findStatusProp [("Name", ColKind.title)] = none ∧
    update_entry_status (some "page-9") (some [("Name", ColKind.title)])
        true "Done" =
      { retrieveIssued := true, updateIssued := false,
        sentProp := none, result := false } :=
  ⟨rfl, rfl, by decide,
   (C4_update_entry_status_scans_then_writes_verbatim (some "page-9") rfl
      [("Name", ColKind.title), ("Status", ColKind.status)] true
      "Totally Unvalidated").2 "Status" rfl (by decide),
   rfl,
   (C4_update_entry_status_scans_then_writes_verbatim (some "page-9") rfl
      [("Name", ColKind.title)] true "Done").1 rfl⟩

/-- C7: a cycle failure never stops the scheduler.  Any error raised
inside a refresh cycle is caught by `perform_refresh` and turned into
`False`; with no interrupt the loop never exits (it completes every
iteration, one tick each); and the number of cycles run is identical
whether the cycles fail or succeed — the outcome oracle does not influence
the loop at all.  An interrupt, by contrast, does exit the loop. -/
theorem C7_cycle_failure_never_stops_scheduler
    (e : RefreshError) (o o' : Nat → Option RefreshError)
    (im fuel : Nat) (s : SchedState) :
    perform_refresh (some e) = false ∧
    (start_scheduler im o (fun _ => false) fuel).2 = false ∧
    (start_scheduler im o (fun _ => false) fuel).1.now = fuel ∧
    (start_scheduler im o (fun _ => false) fuel).1.cyclesStarted
      = (start_scheduler im o' (fun _ => false) fuel).1.cyclesStarted ∧
    (schedLoop im o (fun _ => true) (fuel + 1) s).2 = true := by
  refine ⟨rfl, ?_, ?_, ?_, rfl⟩
  · exact (schedLoop_no_interrupt im o (fun _ => false) (fun _ => rfl) fuel
      (sched_init im o)).1
  · have h := (schedLoop_no_interrupt im o (fun _ => false) (fun _ => rfl)
      fuel (sched_init im o)).2
    simpa [start_scheduler, sched_init] using h
  · exact (schedLoop_ctrl im o o' (fun _ => false) fuel (sched_init im o)
      (sched_init im o') rfl rfl rfl).2.2.1

set_option maxRecDepth 4000 in
/-- C8: `start_scheduler` runs one cycle immediately (cycle count 1 with
zero ticks of the sleep-1 loop), a second when the first interval of
60 × 1 time units has elapsed, and a third when the second has; after two
interval periods (the tick processing time 120 being the 121st) exactly
three cycles total have run, and no fourth arrives before the third
interval ends. -/
theorem C8_scheduler_three_cycles_after_two_intervals :
    (start_scheduler 1 (fun _ => none) (fun _ => false) 0).1.cyclesStarted
      = 1 ∧
    (start_scheduler 1 (fun _ => none) (fun _ => false) 60).1.cyclesStarted
      = 1 ∧
    (start_scheduler 1 (fun _ => none) (fun _ => false) 61).1.cyclesStarted
      = 2 ∧
    (start_scheduler 1 (fun _ => none) (fun _ => false) 121).1.cyclesStarted
      = 3 ∧
    (start_scheduler 1 (fun _ => none) (fun _ => false) 180).1.cyclesStarted
      = 3 := by
  refine ⟨rfl, ?_, ?_, ?_, ?_⟩ <;> decide

/-- C9: calling `update_entry_status` with a missing (`None`) or empty
page id returns `False` immediately: no retrieve, no update, nothing sent
to the remote store, for every status value and every remote behaviour. -/
theorem C9_update_entry_status_rejects_missing_page_id
    (pid : Option String) (h : truthyStr pid = false)
    (retrieve : Option (List (String × ColKind))) (uok : Bool)
    (ns : String) :
    update_entry_status pid retrieve uok ns =
      { retrieveIssued := false, updateIssued := false,
        sentProp := none, result := false } := by
  simp [update_entry_status, h]

/-- Witness for C9: the empty page id, against a page that does have a
status column and a remote that would succeed. -/
theorem C9_update_entry_status_rejects_missing_page_id_witness :
    truthyStr (some "") = false ∧
    update_entry_status (some "") (some [("Status", ColKind.status)])
        true "Done" =
      { retrieveIssued := false, updateIssued := false,
        sentProp := none, result := false } :=
  ⟨rfl, C9_update_entry_status_rejects_missing_page_id (some "") rfl
          (some [("Status", ColKind.status)]) true "Done"⟩

/-- C10: `update_changelog` never propagates an exception to its caller:
for every file-system behaviour (file present or not, header write or line
append raising or not) the call returns normally — `Except.ok` — and the
failure cases come back caught and logged: an append raising on an
existing file logs the error with nothing written, while an append
raising on a fresh file logs the error with the header (already written
before the raise) kept, and a failing header write logs the error with
nothing written. -/
theorem C10_update_changelog_never_propagates (fs : FsState) :
    (update_changelog fs).isOk = true ∧
    update_changelog { fileExists := true, headerWriteFails := false,
                       appendFails := true } =
      Except.ok { headerWritten := false, lineAppended := false,
                  errorLogged := true } ∧
    update_changelog { fileExists := false, headerWriteFails := false,
                       appendFails := true } =
      Except.ok { headerWritten := true, lineAppended := false,
                  errorLogged := true } ∧
    update_changelog { fileExists := false, headerWriteFails := true,
                       appendFails := false } =
      Except.ok { headerWritten := false, lineAppended := false,
                  errorLogged := true } := by
  rcases fs with ⟨ex, hw, ap⟩
  cases ex <;> cases hw <;> cases ap <;> exact ⟨rfl, rfl, rfl, rfl⟩

end NotionAutopilot
